import Mathlib

/-!
# BleWinrtDll: the asynchronous GATT operation pipeline of `ble-winrt.cpp`

A shallow embedding of the public operations of `src/BleWinrt DLL/ble-winrt.cpp`.

* Every awaited WinRT call and every resolver of `cache.h` is a field of `Platform`:
  the embedding is a function of what those calls answer (a value, or a thrown
  `hresult_error`). `RemoveFromCache` and the answer of `advertisementWatcher.Stop()`
  are arguments of `DisconnectDevice` and `Quit`.
* `WriteBytesAsync` keeps the raw pointer of its caller across a suspension, so it
  receives the memory as it is when the bytes are read.
* Every operation returns the ordered trace of what it did (`Event`): the calls it
  awaited, the stores into the carrier array, the callback invocations.
* The global `quitFlag` is written by other threads while a loop runs, so a loop
  receives the flag as `quitFlag : Nat → Bool`, the value read by the poll that
  closes iteration `t` (counted from 0).
-/

namespace BleWinrt

/-! ## Transport data -/

/-- A 128-bit `winrt::guid`; `guid{}` is 0. -/
abbrev guid := Nat

/-- The `GattCommunicationStatus` of the platform. -/
inductive GattCommunicationStatus
  | Success
  | Unreachable
  | ProtocolError
  | AccessDenied
  deriving DecidableEq

/-- The `BluetoothCacheMode` of the platform. -/
inductive BluetoothCacheMode
  | Cached
  | Uncached
  deriving DecidableEq

/-- The `winrt::hresult_error` a WinRT call throws. -/
structure hresult_error where
  code : Int
  deriving DecidableEq

/-- The `std::exception` caught in `DisconnectDevice`. -/
structure std_exception where
  what : String
  deriving DecidableEq

/-- What a helper of `cache.h` can raise: a `std::exception`, or an error of a class not
derived from it, the `winrt::hresult_error` of the WinRT calls. -/
inductive Thrown
  | std_exception (e : std_exception)
  | hresult_error (ex : hresult_error)
  deriving DecidableEq

/-- A connected `BluetoothLEDevice` (non-null). -/
structure BluetoothLEDevice where
  BluetoothAddress : Nat
  deriving DecidableEq

/-- A `GattDeviceService` (non-null). -/
structure GattDeviceService where
  Uuid : guid
  AttributeHandle : Nat
  deriving DecidableEq

/-- A `GattCharacteristic` (non-null). -/
structure GattCharacteristic where
  Uuid : guid
  AttributeHandle : Nat
  deriving DecidableEq

/-- A `GattDescriptor` (non-null). -/
structure GattDescriptor where
  Uuid : guid
  AttributeHandle : Nat
  deriving DecidableEq

/-- The `GattDeviceServicesResult`: status and the service vector. -/
structure GattDeviceServicesResult where
  Status : GattCommunicationStatus
  Services : List GattDeviceService
  deriving DecidableEq

/-- The `GattCharacteristicsResult`: status and the characteristic vector. -/
structure GattCharacteristicsResult where
  Status : GattCommunicationStatus
  Characteristics : List GattCharacteristic
  deriving DecidableEq

/-- The `GattDescriptorsResult`: status and the descriptor vector. -/
structure GattDescriptorsResult where
  Status : GattCommunicationStatus
  Descriptors : List GattDescriptor
  deriving DecidableEq

/-- The `GattReadResult`: status and the bytes of the `IBuffer`. -/
structure GattReadResult where
  Status : GattCommunicationStatus
  Value : List Nat
  deriving DecidableEq

/-! ## Carriers handed to the callbacks (`carriers.h`) -/

/-- The carrier `BleService` of one service. -/
structure BleService where
  serviceUuid : guid
  deriving DecidableEq

/-- A default-constructed `BleService`, as `new BleService[n]` leaves every slot. -/
def BleService.empty : BleService := ⟨0⟩

/-- Modelled from the spec: `BleServiceArray` is declared in `carriers.h`, which is
not among the sources. It is the possibly-empty list of service descriptors: a heap
array (`none` while the pointer is null) and the reported `count`. -/
structure BleServiceArray where
  services : Option (List BleService)
  count : Nat
  deriving DecidableEq

/-- Modelled from the spec: the default-constructed `BleServiceArray service_list` of
line 150, the empty list (null array, count 0); its constructor is in `carriers.h`. -/
def BleServiceArray.empty : BleServiceArray := ⟨none, 0⟩

/-- The carrier `BleCharacteristic` of one characteristic. -/
structure BleCharacteristic where
  characteristicUuid : guid
  userDescription : String
  deriving DecidableEq

/-- A default-constructed `BleCharacteristic`, as `new BleCharacteristic[n]` leaves
every slot (zero guid, no description copied in). -/
def BleCharacteristic.empty : BleCharacteristic := ⟨0, ""⟩

/-- Modelled from the spec: `BleCharacteristicArray` is declared in `carriers.h`,
which is not among the sources. It is the possibly-empty list of characteristic
descriptors: a heap array (`none` while the pointer is null) and the reported
`count`. -/
structure BleCharacteristicArray where
  characteristics : Option (List BleCharacteristic)
  count : Nat
  deriving DecidableEq

/-- Modelled from the spec: the default-constructed `BleCharacteristicArray char_list`
of line 214, the empty list (null array, count 0); its constructor is in
`carriers.h`. -/
def BleCharacteristicArray.empty : BleCharacteristicArray := ⟨none, 0⟩

/-! ## The platform: what every awaited call answers -/

/-- The answers of the calls the operations await. `RetrieveDevice`,
`RetrieveService` and `RetrieveCharacteristic` are the resolvers of `cache.h`
(`none` is `nullptr`); the others are WinRT calls on the handle they are named
after. `ReadString` is `DataReader::ReadString` over the whole buffer. -/
structure Platform where
  RetrieveDevice : Nat → Except hresult_error (Option BluetoothLEDevice)
  RetrieveService : Nat → guid → Except hresult_error (Option GattDeviceService)
  RetrieveCharacteristic :
    Nat → guid → guid → Except hresult_error (Option GattCharacteristic)
  GetGattServicesAsync :
    BluetoothLEDevice → BluetoothCacheMode → Except hresult_error GattDeviceServicesResult
  GetCharacteristicsAsync :
    GattDeviceService → BluetoothCacheMode → Except hresult_error GattCharacteristicsResult
  GetDescriptorsForUuidAsync :
    GattCharacteristic → guid → BluetoothCacheMode → Except hresult_error GattDescriptorsResult
  DescriptorReadValueAsync : GattDescriptor → Except hresult_error GattReadResult
  WriteClientCharacteristicConfigurationDescriptorAsync :
    GattCharacteristic → Except hresult_error GattCommunicationStatus
  ReadValueAsync : GattCharacteristic → Except hresult_error GattReadResult
  WriteValueAsync : GattCharacteristic → List Nat → Except hresult_error GattCommunicationStatus
  ReadString : List Nat → String

/-! ## Events -/

/-- What an operation does, in order: awaited calls, stores into the carrier array,
callback invocations (the last seven constructors). -/
inductive Event
  | RetrieveDevice (deviceAddress : Nat)
  | RetrieveService (deviceAddress : Nat) (serviceUuid : guid)
  | RetrieveCharacteristic (deviceAddress : Nat) (serviceUuid characteristicUuid : guid)
  | GetGattServicesAsync (device : BluetoothLEDevice) (mode : BluetoothCacheMode)
  | GetCharacteristicsAsync (service : GattDeviceService) (mode : BluetoothCacheMode)
  | GetDescriptorsForUuidAsync (c : GattCharacteristic) (uuid : guid) (mode : BluetoothCacheMode)
  | DescriptorReadValueAsync (descriptor : GattDescriptor)
  | WriteClientCharacteristicConfigurationDescriptorAsync (c : GattCharacteristic)
  | ReadValueAsync (c : GattCharacteristic)
  | WriteValueAsync (c : GattCharacteristic) (bytes : List Nat)
  | RemoveFromCache (deviceAddress : Nat)
  | ClearCache
  | setQuitFlag
  | Stop
  | revoke (c : GattCharacteristic)
  | clearSubscriptions
  | storeService (i : Nat) (carrier : BleService)
  | storeCharacteristic (i : Nat) (carrier : BleCharacteristic)
  | connectedCb (deviceAddress : Nat)
  | disconnectedCb (deviceAddress : Nat)
  | servicesCb (service_list : BleServiceArray)
  | characteristicsCb (char_list : BleCharacteristicArray)
  | subscribeCallback
  | readBufferCb (bytes : List Nat) (size : Nat)
  | writeCallback (ok : Bool)
  deriving DecidableEq

/-- Whether an event is a callback invocation. -/
def Event.isCallback : Event → Bool
  | .connectedCb _ => true
  | .disconnectedCb _ => true
  | .servicesCb _ => true
  | .characteristicsCb _ => true
  | .subscribeCallback => true
  | .readBufferCb _ _ => true
  | .writeCallback _ => true
  | _ => false

/-- The number of callback invocations in a trace. -/
def callbackCount (trace : List Event) : Nat :=
  trace.countP Event.isCallback

/-- How a coroutine or function ends: it returns, an exception leaves it uncaught,
or it calls a method on a null handle. -/
inductive Ending
  | returned
  | uncaught (ex : hresult_error)
  | nullDereference
  deriving DecidableEq

/-- The run of an operation: its trace and how it ended. -/
structure Run where
  trace : List Event
  ending : Ending
  deriving DecidableEq

/-! ## ScanServicesAsync (lines 148-209) -/

/-- The locals of `ScanServicesAsync` that outlive the `try` block, with the trace. -/
structure ServicesScan where
  service_list : BleServiceArray
  trace : List Event
  deriving DecidableEq

/-- The store `service_list.services[i] = service_carrier` of line 190. -/
def BleServiceArray.store (l : BleServiceArray) (i : Nat) (c : BleService) : BleServiceArray :=
  { l with services := l.services.map (fun a => a.set i c) }

/-- The `for (auto&& service : services)` loop of lines 184-197: `i` is the local
`int i`, which is also the number of iterations done before, so the poll closing
this iteration reads `quitFlag i`. The index is a natural number: a GATT server has
at most 65535 attributes, so `i` stays far below the range of `int`. -/
def ScanServicesAsync.loop (quitFlag : Nat → Bool) :
    List GattDeviceService → Nat → ServicesScan → ServicesScan
  | [], _, st => st
  | service :: rest, i, st =>
    let service_carrier : BleService := ⟨service.Uuid⟩
    let st1 : ServicesScan :=
      { service_list := st.service_list.store i service_carrier,
        trace := st.trace ++ [Event.storeService i service_carrier] }
    if quitFlag i then st1
    else ScanServicesAsync.loop quitFlag rest (i + 1) st1

/-- Lines 170-199: what is done with the final `result`. -/
def ScanServicesAsync.onResult (quitFlag : Nat → Bool) (result : GattDeviceServicesResult)
    (st : ServicesScan) : ServicesScan :=
  if result.Status = GattCommunicationStatus.Success then
    let services := result.Services
    let count := services.length
    if count = 0 then
      { st with service_list := { st.service_list with count := count } }
    else
      ScanServicesAsync.loop quitFlag services 0
        { st with service_list := ⟨some (List.replicate count BleService.empty), count⟩ }
  else st

/-- The callback invocation `if (servicesCb) (*servicesCb)(&service_list)`. -/
def ScanServicesAsync.finish (servicesCb : Bool) (st : ServicesScan) : Run :=
  { trace := st.trace ++ (if servicesCb then [Event.servicesCb st.service_list] else []),
    ending := Ending.returned }

/-- Lines 165-168: the service-list request in uncached mode and, when its status is
`Unreachable`, the second request in cached mode; the final `result` (or the thrown
error) and the requests awaited. -/
def ScanServicesAsync.query (P : Platform) (device : BluetoothLEDevice) :
    Except hresult_error GattDeviceServicesResult × List Event :=
  let e1 := Event.GetGattServicesAsync device BluetoothCacheMode.Uncached
  match P.GetGattServicesAsync device BluetoothCacheMode.Uncached with
  | .error ex => (.error ex, [e1])
  | .ok result =>
    if result.Status = GattCommunicationStatus.Unreachable then
      (P.GetGattServicesAsync device BluetoothCacheMode.Cached,
        [e1, Event.GetGattServicesAsync device BluetoothCacheMode.Cached])
    else
      (.ok result, [e1])

/-- The coroutine `ScanServicesAsync` (lines 148-209); `servicesCb` tells whether the
callback pointer is non-null. A thrown `hresult_error` is caught at line 201 and the
callback of line 207 follows. -/
def ScanServicesAsync (P : Platform) (quitFlag : Nat → Bool) (deviceAddress : Nat)
    (servicesCb : Bool) : Run :=
  let st0 : ServicesScan := ⟨BleServiceArray.empty, [Event.RetrieveDevice deviceAddress]⟩
  match P.RetrieveDevice deviceAddress with
  | .error _ => ScanServicesAsync.finish servicesCb st0
  | .ok none => ScanServicesAsync.finish servicesCb st0
  | .ok (some device) =>
    let st1 : ServicesScan :=
      { st0 with trace := st0.trace ++ (ScanServicesAsync.query P device).2 }
    match (ScanServicesAsync.query P device).1 with
    | .error _ => ScanServicesAsync.finish servicesCb st1
    | .ok result =>
      ScanServicesAsync.finish servicesCb (ScanServicesAsync.onResult quitFlag result st1)

/-- The cache modes of the service-list requests of a trace, in order. -/
def requestedModes (trace : List Event) : List BluetoothCacheMode :=
  trace.filterMap fun e =>
    match e with
    | Event.GetGattServicesAsync _ mode => some mode
    | _ => none

/-- The payloads handed to the services callback, in order. -/
def servicesDelivered (trace : List Event) : List BleServiceArray :=
  trace.filterMap fun e =>
    match e with
    | Event.servicesCb l => some l
    | _ => none

/-- The indices of the stores into the service array, in order. -/
def serviceStoreIndices (trace : List Event) : List Nat :=
  trace.filterMap fun e =>
    match e with
    | Event.storeService i _ => some i
    | _ => none

/-! ## ScanCharacteristicsAsync (lines 212-292) -/

/-- The user-description descriptor `00002901-0000-1000-8000-00805F9B34FB`. -/
def userDescriptionUuid : guid := 0x0000290100001000800000805F9B34FB

/-- The locals of `ScanCharacteristicsAsync` that outlive the `try` block, with the
trace. -/
structure CharacteristicsScan where
  char_list : BleCharacteristicArray
  trace : List Event
  deriving DecidableEq

/-- The store `char_list.characteristics[i] = char_carrier` of line 276. -/
def BleCharacteristicArray.store (l : BleCharacteristicArray) (i : Nat)
    (c : BleCharacteristic) : BleCharacteristicArray :=
  { l with characteristics := l.characteristics.map (fun a => a.set i c) }

/-- The placeholder `defaultDescription` of line 255. -/
def defaultDescription : String := "no description available"

/-- How lines 251-274 end for one characteristic: an awaited call threw, the
iteration hit `continue`, or the description to copy into the carrier is known. -/
inductive DescriptionLookup
  | threw
  | skipped
  | found (userDescription : String)
  deriving DecidableEq

/-- Lines 251-274: the descriptor query, the read of the first descriptor, and the
description they give, with the calls awaited. `wcscpy_s` is the plain copy: the
capacity of `userDescription` is declared in `carriers.h`. -/
def ScanCharacteristicsAsync.lookup (P : Platform) (c : GattCharacteristic) :
    DescriptionLookup × List Event :=
  let e1 := Event.GetDescriptorsForUuidAsync c userDescriptionUuid BluetoothCacheMode.Uncached
  match P.GetDescriptorsForUuidAsync c userDescriptionUuid BluetoothCacheMode.Uncached with
  | .error _ => (DescriptionLookup.threw, [e1])
  | .ok descriptorScan =>
    match descriptorScan.Descriptors with
    | [] => (DescriptionLookup.found defaultDescription, [e1])
    | descriptor :: _ =>
      let e2 := Event.DescriptorReadValueAsync descriptor
      match P.DescriptorReadValueAsync descriptor with
      | .error _ => (DescriptionLookup.threw, [e1, e2])
      | .ok nameResult =>
        if nameResult.Status ≠ GattCommunicationStatus.Success then
          (DescriptionLookup.skipped, [e1, e2])
        else
          (DescriptionLookup.found (P.ReadString nameResult.Value), [e1, e2])

/-- The `for (auto c : characteristics)` loop of lines 244-283: `t` is the number of
iterations done before, `i` the local `int i`. The poll of lines 278-282 closes
iteration `t` and reads `quitFlag t`; `continue` passes over the store and the
poll. A thrown `hresult_error` leaves the loop with the locals as they are. -/
def ScanCharacteristicsAsync.loop (P : Platform) (quitFlag : Nat → Bool) :
    List GattCharacteristic → Nat → Nat → CharacteristicsScan → CharacteristicsScan
  | [], _, _, st => st
  | c :: rest, t, i, st =>
    let st1 : CharacteristicsScan :=
      { st with trace := st.trace ++ (ScanCharacteristicsAsync.lookup P c).2 }
    match (ScanCharacteristicsAsync.lookup P c).1 with
    | DescriptionLookup.threw => st1
    | DescriptionLookup.skipped => ScanCharacteristicsAsync.loop P quitFlag rest (t + 1) i st1
    | DescriptionLookup.found userDescription =>
      let char_carrier : BleCharacteristic := ⟨c.Uuid, userDescription⟩
      let st2 : CharacteristicsScan :=
        { char_list := st1.char_list.store i char_carrier,
          trace := st1.trace ++ [Event.storeCharacteristic i char_carrier] }
      if quitFlag t then st2
      else ScanCharacteristicsAsync.loop P quitFlag rest (t + 1) (i + 1) st2

/-- The callback invocation `if (characteristicsCb) (*characteristicsCb)(&char_list)`. -/
def ScanCharacteristicsAsync.finish (characteristicsCb : Bool) (st : CharacteristicsScan) :
    Run :=
  { trace := st.trace ++
      (if characteristicsCb then [Event.characteristicsCb st.char_list] else []),
    ending := Ending.returned }

/-- The coroutine `ScanCharacteristicsAsync` (lines 212-292). -/
def ScanCharacteristicsAsync (P : Platform) (quitFlag : Nat → Bool) (deviceAddress : Nat)
    (serviceUuid : guid) (characteristicsCb : Bool) : Run :=
  let st0 : CharacteristicsScan :=
    ⟨BleCharacteristicArray.empty, [Event.RetrieveService deviceAddress serviceUuid]⟩
  match P.RetrieveService deviceAddress serviceUuid with
  | .error _ => ScanCharacteristicsAsync.finish characteristicsCb st0
  | .ok none => ScanCharacteristicsAsync.finish characteristicsCb st0
  | .ok (some service) =>
    let st1 : CharacteristicsScan :=
      { st0 with trace := st0.trace ++
          [Event.GetCharacteristicsAsync service BluetoothCacheMode.Uncached] }
    match P.GetCharacteristicsAsync service BluetoothCacheMode.Uncached with
    | .error _ => ScanCharacteristicsAsync.finish characteristicsCb st1
    | .ok charScan =>
      if charScan.Status ≠ GattCommunicationStatus.Success then
        ScanCharacteristicsAsync.finish characteristicsCb st1
      else
        let characteristics := charScan.Characteristics
        let count := characteristics.length
        ScanCharacteristicsAsync.finish characteristicsCb
          (ScanCharacteristicsAsync.loop P quitFlag characteristics 0 0
            { st1 with
              char_list := ⟨some (List.replicate count BleCharacteristic.empty), count⟩ })

/-- The payloads handed to the characteristics callback, in order. -/
def characteristicsDelivered (trace : List Event) : List BleCharacteristicArray :=
  trace.filterMap fun e =>
    match e with
    | Event.characteristicsCb l => some l
    | _ => none

/-- The indices of the stores into the characteristic array, in order. -/
def characteristicStoreIndices (trace : List Event) : List Nat :=
  trace.filterMap fun e =>
    match e with
    | Event.storeCharacteristic i _ => some i
    | _ => none

/-! ## SubscribeCharacteristicAsync (lines 294-322) -/

/-- A `Subscription`: the characteristic it was made on. The `revoker` member is never
assigned (line 310 is commented out). -/
structure Subscription where
  characteristic : GattCharacteristic
  deriving DecidableEq

/-- The run of `SubscribeCharacteristicAsync`: trace, ending, and the global list
`subscriptions` afterwards. -/
structure SubscribeRun where
  trace : List Event
  ending : Ending
  subscriptions : List Subscription
  deriving DecidableEq

/-- The coroutine `SubscribeCharacteristicAsync` (lines 294-322) run on the global
list `subscriptions`. -/
def SubscribeCharacteristicAsync (P : Platform) (subscriptions : List Subscription)
    (deviceAddress : Nat) (serviceUuid characteristicUuid : guid)
    (subscribeCallback : Bool) : SubscribeRun :=
  let t0 := [Event.RetrieveCharacteristic deviceAddress serviceUuid characteristicUuid]
  match P.RetrieveCharacteristic deviceAddress serviceUuid characteristicUuid with
  | .error _ => ⟨t0, Ending.returned, subscriptions⟩
  | .ok none => ⟨t0, Ending.returned, subscriptions⟩
  | .ok (some characteristic) =>
    let t1 := t0 ++ [Event.WriteClientCharacteristicConfigurationDescriptorAsync characteristic]
    match P.WriteClientCharacteristicConfigurationDescriptorAsync characteristic with
    | .error _ => ⟨t1, Ending.returned, subscriptions⟩
    | .ok status =>
      if status ≠ GattCommunicationStatus.Success then
        ⟨t1, Ending.returned, subscriptions⟩
      else
        ⟨t1 ++ (if subscribeCallback then [Event.subscribeCallback] else []),
          Ending.returned, subscriptions ++ [⟨characteristic⟩]⟩

/-! ## ConnectDeviceAsync, ReadBytesAsync, WriteBytesAsync (lines 324-382) -/

/-- The coroutine `ConnectDeviceAsync` (lines 324-337); it has no `try` block. -/
def ConnectDeviceAsync (P : Platform) (deviceAddress : Nat) (connectedCb : Bool) : Run :=
  let t0 := [Event.RetrieveDevice deviceAddress]
  match P.RetrieveDevice deviceAddress with
  | .error ex => ⟨t0, Ending.uncaught ex⟩
  | .ok none => ⟨t0 ++ (if connectedCb then [Event.connectedCb 0] else []), Ending.returned⟩
  | .ok (some _) =>
    ⟨t0 ++ (if connectedCb then [Event.connectedCb deviceAddress] else []), Ending.returned⟩

/-- The coroutine `ReadBytesAsync` (lines 339-357); it has no `try` block and no null
check on `ch`. -/
def ReadBytesAsync (P : Platform) (deviceAddress : Nat) (serviceUuid characteristicUuid : guid)
    (readBufferCb : Bool) : Run :=
  let t0 := [Event.RetrieveCharacteristic deviceAddress serviceUuid characteristicUuid]
  match P.RetrieveCharacteristic deviceAddress serviceUuid characteristicUuid with
  | .error ex => ⟨t0, Ending.uncaught ex⟩
  | .ok none => ⟨t0, Ending.nullDereference⟩
  | .ok (some ch) =>
    let t1 := t0 ++ [Event.ReadValueAsync ch]
    match P.ReadValueAsync ch with
    | .error ex => ⟨t1, Ending.uncaught ex⟩
    | .ok dataFromRead =>
      if dataFromRead.Status ≠ GattCommunicationStatus.Success then
        ⟨t1, Ending.returned⟩
      else
        let bytes := dataFromRead.Value
        ⟨t1 ++ (if readBufferCb then [Event.readBufferCb bytes bytes.length] else []),
          Ending.returned⟩

/-- The `size` bytes at the address `data` in a memory (address to byte): what
`array_view<const uint8_t>(data, data + size)` of line 373 reads. -/
def bytesAt (memory : Nat → Nat) (data size : Nat) : List Nat :=
  (List.range size).map fun j => memory (data + j)

/-- The coroutine `WriteBytesAsync` (lines 359-382). `data` is the raw pointer of the
caller and `size` the length: the coroutine keeps the pointer and reads the bytes at
line 373, after the `co_await` of line 362, when `WriteBytes` has returned to its
caller. `memory` is the memory as it is when line 373 runs. The coroutine has no `try`
block; the returned `status` is not used. -/
def WriteBytesAsync (P : Platform) (deviceAddress : Nat) (serviceUuid characteristicUuid : guid)
    (data size : Nat) (memory : Nat → Nat) (writeCallback : Bool) : Run :=
  let t0 := [Event.RetrieveCharacteristic deviceAddress serviceUuid characteristicUuid]
  match P.RetrieveCharacteristic deviceAddress serviceUuid characteristicUuid with
  | .error ex => ⟨t0, Ending.uncaught ex⟩
  | .ok none => ⟨t0 ++ (if writeCallback then [Event.writeCallback false] else []), Ending.returned⟩
  | .ok (some ch) =>
    let buffer := bytesAt memory data size
    let t1 := t0 ++ [Event.WriteValueAsync ch buffer]
    match P.WriteValueAsync ch buffer with
    | .error ex => ⟨t1, Ending.uncaught ex⟩
    | .ok _ => ⟨t1 ++ (if writeCallback then [Event.writeCallback true] else []), Ending.returned⟩

/-- The writes a trace issues to the transport, in order. -/
def writesIssued (trace : List Event) : List (GattCharacteristic × List Nat) :=
  trace.filterMap fun e =>
    match e with
    | Event.WriteValueAsync c bytes => some (c, bytes)
    | _ => none

/-! ## The cache (`cache.h`), DisconnectDevice (lines 104-120), Quit (lines 437-455) -/

/-- Modelled from the spec: the key of a `HandleCache` entry (`cache.h` is not among
the sources): a device address, or a device and a service, or a device, a service
and a characteristic. -/
structure CacheKey where
  deviceAddress : Nat
  serviceUuid : Option guid
  characteristicUuid : Option guid
  deriving DecidableEq

/-- Modelled from the spec: the `HandleCache` of `cache.h`, as the keys it holds. -/
abbrev HandleCache := List CacheKey

/-- Modelled from the spec: `clear()` of the `HandleCache` (`ClearCache` of `cache.h`)
leaves the cache empty. -/
def ClearCache (_cache : HandleCache) : HandleCache := []

/-- Modelled from the spec: `remove(deviceAddress)` of the `HandleCache` when it raises
no error: the device entry goes, and with it every service and characteristic entry
keyed under that device. -/
def HandleCache.remove (deviceAddress : Nat) (cache : HandleCache) : HandleCache :=
  cache.filter (fun k => k.deviceAddress ≠ deviceAddress)

/-- The run of `DisconnectDevice`: trace, ending, and the cache afterwards. -/
structure DisconnectRun where
  trace : List Event
  ending : Ending
  cache : HandleCache
  deriving DecidableEq

/-- The function `DisconnectDevice` (lines 104-120). `RemoveFromCache` is the helper of
`cache.h`: it gives the cache it leaves and what it raised, if anything. The handler of
line 113 takes `const std::exception&` only: an error of another class leaves
`DisconnectDevice` uncaught, before any callback. -/
def DisconnectDevice (RemoveFromCache : Nat → HandleCache → HandleCache × Option Thrown)
    (cache : HandleCache) (deviceAddress : Nat) (connectedCb : Bool) : DisconnectRun :=
  let t0 := [Event.RemoveFromCache deviceAddress]
  match RemoveFromCache deviceAddress cache with
  | (cache1, none) =>
    ⟨t0 ++ (if connectedCb then [Event.disconnectedCb deviceAddress] else []),
      Ending.returned, cache1⟩
  | (cache1, some (Thrown.std_exception _)) =>
    ⟨t0 ++ (if connectedCb then [Event.disconnectedCb 0] else []), Ending.returned, cache1⟩
  | (cache1, some (Thrown.hresult_error ex)) =>
    ⟨t0, Ending.uncaught ex, cache1⟩

/-- The mutable globals `Quit` works on: `quitFlag`, `subscriptions`, and the cache of
`cache.h`. -/
structure Globals where
  quitFlag : Bool
  subscriptions : List Subscription
  cache : HandleCache
  deriving DecidableEq

/-- The run of `Quit`: trace, ending, and the globals afterwards. -/
structure QuitRun where
  trace : List Event
  ending : Ending
  globals : Globals
  deriving DecidableEq

/-- The function `StopScan` (lines 94-97): it forwards to `advertisementWatcher.Stop()`,
whose answer is `Stop`. -/
def StopScan (Stop : Except hresult_error Unit) : Except hresult_error Unit :=
  Stop

/-- The function `Quit` (lines 437-455). `Stop` is what `advertisementWatcher.Stop()`
answers in `StopScan`. `Quit` has no `try` block: a thrown error leaves it at once. -/
def Quit (Stop : Except hresult_error Unit) (g : Globals) : QuitRun :=
  let g1 : Globals := { g with quitFlag := true }
  let t1 := [Event.setQuitFlag, Event.Stop]
  match StopScan Stop with
  | .error ex => ⟨t1, Ending.uncaught ex, g1⟩
  | .ok _ =>
    let t2 := t1 ++ g1.subscriptions.map (fun subscription => Event.revoke subscription.characteristic)
    let g2 : Globals := { g1 with subscriptions := [] }
    let t3 := t2 ++ [Event.clearSubscriptions]
    let g3 : Globals := { g2 with cache := ClearCache g2.cache }
    ⟨t3 ++ [Event.ClearCache], Ending.returned, g3⟩

/-! ## The exported entry points (lines 99-145) -/

/-- The export `ConnectDevice` (lines 99-102) starts `ConnectDeviceAsync`. -/
def ConnectDevice (P : Platform) (deviceAddress : Nat) (connectedCb : Bool) : Run :=
  ConnectDeviceAsync P deviceAddress connectedCb

/-- The export `ScanServices` (lines 122-125) starts `ScanServicesAsync`. -/
def ScanServices (P : Platform) (quitFlag : Nat → Bool) (deviceAddress : Nat)
    (serviceFoundCb : Bool) : Run :=
  ScanServicesAsync P quitFlag deviceAddress serviceFoundCb

/-- The export `ScanCharacteristics` (lines 127-130) starts `ScanCharacteristicsAsync`. -/
def ScanCharacteristics (P : Platform) (quitFlag : Nat → Bool) (deviceAddress : Nat)
    (serviceUuid : guid) (characteristicFoundCb : Bool) : Run :=
  ScanCharacteristicsAsync P quitFlag deviceAddress serviceUuid characteristicFoundCb

/-- The export `SubscribeCharacteristic` (lines 132-135) starts `SubscribeCharacteristicAsync`. -/
def SubscribeCharacteristic (P : Platform) (subscriptions : List Subscription)
    (deviceAddress : Nat) (serviceUuid characteristicUuid : guid)
    (subscribeCallback : Bool) : SubscribeRun :=
  SubscribeCharacteristicAsync P subscriptions deviceAddress serviceUuid characteristicUuid
    subscribeCallback

/-- The export `ReadBytes` (lines 137-140) starts `ReadBytesAsync`. -/
def ReadBytes (P : Platform) (deviceAddress : Nat) (serviceUuid characteristicUuid : guid)
    (readBufferCb : Bool) : Run :=
  ReadBytesAsync P deviceAddress serviceUuid characteristicUuid readBufferCb

/-- The export `WriteBytes` (lines 142-145) starts `WriteBytesAsync` with the pointer
`data` and the length `size`, and returns; `memory` is the memory as it is when the
coroutine reads the bytes. -/
def WriteBytes (P : Platform) (deviceAddress : Nat) (serviceUuid characteristicUuid : guid)
    (data size : Nat) (memory : Nat → Nat) (writeBytesCb : Bool) : Run :=
  WriteBytesAsync P deviceAddress serviceUuid characteristicUuid data size memory writeBytesCb

/-! ## Concrete platforms -/

/-- A platform on which no resolver finds a handle and every call returns `Success`
with nothing in it. -/
def Platform.quiet : Platform where
  RetrieveDevice := fun _ => .ok none
  RetrieveService := fun _ _ => .ok none
  RetrieveCharacteristic := fun _ _ _ => .ok none
  GetGattServicesAsync := fun _ _ => .ok ⟨GattCommunicationStatus.Success, []⟩
  GetCharacteristicsAsync := fun _ _ => .ok ⟨GattCommunicationStatus.Success, []⟩
  GetDescriptorsForUuidAsync := fun _ _ _ => .ok ⟨GattCommunicationStatus.Success, []⟩
  DescriptorReadValueAsync := fun _ => .ok ⟨GattCommunicationStatus.Success, []⟩
  WriteClientCharacteristicConfigurationDescriptorAsync := fun _ =>
    .ok GattCommunicationStatus.Success
  ReadValueAsync := fun _ => .ok ⟨GattCommunicationStatus.Success, []⟩
  WriteValueAsync := fun _ _ => .ok GattCommunicationStatus.Success
  ReadString := fun _ => ""

/-- A platform on which every device resolves and answers the service-list request
with `Success` and the two services 0x1800 and 0x180F, whatever the cache mode. -/
def Platform.twoServices : Platform :=
  { Platform.quiet with
    RetrieveDevice := fun a => .ok (some ⟨a⟩)
    GetGattServicesAsync := fun _ _ =>
      .ok ⟨GattCommunicationStatus.Success, [⟨0x1800, 1⟩, ⟨0x180F, 5⟩]⟩ }

/-- A platform on which every device resolves, the uncached service-list request
answers `Unreachable` and the cached one `Success` with the service 0x1800. -/
def Platform.staleLink : Platform :=
  { Platform.quiet with
    RetrieveDevice := fun a => .ok (some ⟨a⟩)
    GetGattServicesAsync := fun _ mode =>
      match mode with
      | BluetoothCacheMode.Uncached => .ok ⟨GattCommunicationStatus.Unreachable, []⟩
      | BluetoothCacheMode.Cached => .ok ⟨GattCommunicationStatus.Success, [⟨0x1800, 1⟩]⟩ }

/-- A platform on which every service resolves and has the two characteristics 0x2A00
(handle 2, no user-description descriptor) and 0x2A19 (handle 4, one user-description
descriptor, whose read answers `Unreachable`). -/
def Platform.twoCharacteristics : Platform :=
  { Platform.quiet with
    RetrieveService := fun _ u => .ok (some ⟨u, 1⟩)
    GetCharacteristicsAsync := fun _ _ =>
      .ok ⟨GattCommunicationStatus.Success, [⟨0x2A00, 2⟩, ⟨0x2A19, 4⟩]⟩
    GetDescriptorsForUuidAsync := fun c u _ =>
      .ok ⟨GattCommunicationStatus.Success, if c.AttributeHandle = 4 then [⟨u, 5⟩] else []⟩
    DescriptorReadValueAsync := fun _ => .ok ⟨GattCommunicationStatus.Unreachable, []⟩ }

/-- A platform on which every characteristic resolves (handle 3) and every call on it
answers the given status. -/
def Platform.answering (status : GattCommunicationStatus) : Platform :=
  { Platform.quiet with
    RetrieveDevice := fun a => .ok (some ⟨a⟩)
    RetrieveCharacteristic := fun _ _ c => .ok (some ⟨c, 3⟩)
    WriteClientCharacteristicConfigurationDescriptorAsync := fun _ => .ok status
    ReadValueAsync := fun _ => .ok ⟨status, [1, 2, 3]⟩
    WriteValueAsync := fun _ _ => .ok status }

/-- Modelled from the spec: `RemoveFromCache` of `cache.h` when it raises no error. -/
def quietRemoveFromCache (deviceAddress : Nat) (cache : HandleCache) :
    HandleCache × Option Thrown :=
  (HandleCache.remove deviceAddress cache, none)

/-- A `RemoveFromCache` that raises a `std::exception` and leaves the cache as it is. -/
def raisingRemoveFromCache (_deviceAddress : Nat) (cache : HandleCache) :
    HandleCache × Option Thrown :=
  (cache, some (Thrown.std_exception ⟨"cache"⟩))

/-- A `RemoveFromCache` that raises a `winrt::hresult_error` and leaves the cache as it
is. -/
def throwingRemoveFromCache (_deviceAddress : Nat) (cache : HandleCache) :
    HandleCache × Option Thrown :=
  (cache, some (Thrown.hresult_error ⟨-2147467259⟩))

/-- Globals with the flag clear, one subscription and two cache entries. -/
def Globals.sample : Globals :=
  { quitFlag := false
    subscriptions := [⟨⟨0x2A19, 4⟩⟩]
    cache := [⟨7, none, none⟩, ⟨7, some 0x180F, none⟩] }

/-- A platform on which every service resolves and has the two characteristics 0x2A00
and 0x2A19, neither with a user-description descriptor. -/
def Platform.plainCharacteristics : Platform :=
  { Platform.quiet with
    RetrieveService := fun _ u => .ok (some ⟨u, 1⟩)
    GetCharacteristicsAsync := fun _ _ =>
      .ok ⟨GattCommunicationStatus.Success, [⟨0x2A00, 2⟩, ⟨0x2A19, 4⟩]⟩ }

/-- A platform on which every resolver throws. -/
def Platform.throwing : Platform :=
  { Platform.quiet with
    RetrieveDevice := fun _ => .error ⟨-2147467259⟩
    RetrieveService := fun _ _ => .error ⟨-2147467259⟩
    RetrieveCharacteristic := fun _ _ _ => .error ⟨-2147467259⟩ }

/-- A platform on which every characteristic resolves (handle 3) and the
notification-enable request and the write on it throw. -/
def Platform.throwingCalls : Platform :=
  { Platform.quiet with
    RetrieveCharacteristic := fun _ _ c => .ok (some ⟨c, 3⟩)
    WriteClientCharacteristicConfigurationDescriptorAsync := fun _ => .error ⟨-2147467259⟩
    WriteValueAsync := fun _ _ => .error ⟨-2147467259⟩ }

/-! # Theorems -/

/-! ## Traces -/

theorem callbackCount_append (t u : List Event) :
    callbackCount (t ++ u) = callbackCount t + callbackCount u := by
  simp [callbackCount, List.countP_append]

theorem requestedModes_append (t u : List Event) :
    requestedModes (t ++ u) = requestedModes t ++ requestedModes u := by
  simp [requestedModes, List.filterMap_append]

theorem servicesDelivered_append (t u : List Event) :
    servicesDelivered (t ++ u) = servicesDelivered t ++ servicesDelivered u := by
  simp [servicesDelivered, List.filterMap_append]

theorem serviceStoreIndices_append (t u : List Event) :
    serviceStoreIndices (t ++ u) = serviceStoreIndices t ++ serviceStoreIndices u := by
  simp [serviceStoreIndices, List.filterMap_append]

/-! ## The loop of ScanServicesAsync -/

/-- The loop only appends stores to the trace. -/
theorem ScanServicesAsync_loop_appends_stores (quitFlag : Nat → Bool) (l : List GattDeviceService) :
    ∀ (i : Nat) (st : ServicesScan), ∃ w : List (Nat × BleService),
      (ScanServicesAsync.loop quitFlag l i st).trace =
        st.trace ++ w.map (fun p => Event.storeService p.1 p.2) := by
  induction l with
  | nil => intro i st; exact ⟨[], by simp [ScanServicesAsync.loop]⟩
  | cons s rest ih =>
    intro i st
    simp only [ScanServicesAsync.loop]
    split
    · exact ⟨[(i, ⟨s.Uuid⟩)], by simp⟩
    · obtain ⟨w, hw⟩ := ih (i + 1)
        { service_list := st.service_list.store i ⟨s.Uuid⟩,
          trace := st.trace ++ [Event.storeService i ⟨s.Uuid⟩] }
      exact ⟨(i, ⟨s.Uuid⟩) :: w, by simp [hw]⟩

theorem callbackCount_stores (w : List (Nat × BleService)) :
    callbackCount (w.map (fun p => Event.storeService p.1 p.2)) = 0 := by
  induction w with
  | nil => rfl
  | cons p w ih =>
    simp only [callbackCount] at ih
    simp [callbackCount, Event.isCallback, ih]

theorem requestedModes_stores (w : List (Nat × BleService)) :
    requestedModes (w.map (fun p => Event.storeService p.1 p.2)) = [] := by
  induction w with
  | nil => rfl
  | cons p w ih =>
    simp only [requestedModes] at ih
    simp [requestedModes, ih]

/-- With the flag never read set, the loop overwrites the slots from `i` on with the
carriers of the services, in order, storing at `i`, `i + 1`, ... -/
theorem ScanServicesAsync_loop_no_quit (quitFlag : Nat → Bool) (hquit : ∀ t, quitFlag t = false)
    (l : List GattDeviceService) :
    ∀ (pre post : List BleService) (count : Nat) (tr : List Event),
      post.length = l.length →
      ScanServicesAsync.loop quitFlag l pre.length ⟨⟨some (pre ++ post), count⟩, tr⟩ =
        ⟨⟨some (pre ++ l.map fun s => ⟨s.Uuid⟩), count⟩,
          tr ++ (List.range' pre.length l.length).zipWith
            (fun j s => Event.storeService j ⟨s.Uuid⟩) l⟩ := by
  induction l with
  | nil =>
    intro pre post count tr h
    have : post = [] := List.length_eq_zero.mp h
    subst this
    simp [ScanServicesAsync.loop]
  | cons s rest ih =>
    intro pre post count tr h
    cases post with
    | nil => simp at h
    | cons p post1 =>
      have hlen : post1.length = rest.length := by simpa using h
      have hset : (pre ++ p :: post1).set pre.length (⟨s.Uuid⟩ : BleService) =
          (pre ++ [⟨s.Uuid⟩]) ++ post1 := by
        simp [List.set_append_right]
      have := ih (pre ++ [⟨s.Uuid⟩]) post1 count
        (tr ++ [Event.storeService pre.length ⟨s.Uuid⟩]) hlen
      simp only [List.length_append, List.length_singleton] at this
      simp only [ScanServicesAsync.loop, hquit, BleServiceArray.store, Option.map_some', hset]
      simp only [List.append_assoc, List.singleton_append] at this
      simp [this, List.range'_succ]

theorem ScanServicesAsync_onResult_appends_stores (quitFlag : Nat → Bool)
    (result : GattDeviceServicesResult) (st : ServicesScan) :
    ∃ w : List (Nat × BleService),
      (ScanServicesAsync.onResult quitFlag result st).trace =
        st.trace ++ w.map (fun p => Event.storeService p.1 p.2) := by
  unfold ScanServicesAsync.onResult
  split
  · simp only
    split
    · exact ⟨[], by simp⟩
    · exact ScanServicesAsync_loop_appends_stores quitFlag _ 0 _
  · exact ⟨[], by simp⟩

theorem ScanServicesAsync_query_no_callback (P : Platform) (device : BluetoothLEDevice) :
    callbackCount (ScanServicesAsync.query P device).2 = 0 := by
  unfold ScanServicesAsync.query
  simp only
  split
  · rfl
  · split <;> rfl

/-- The shape of every run of `ScanServicesAsync`: events that are no callbacks, then
the callback when the pointer is non-null. -/
theorem ScanServicesAsync_trace_shape (P : Platform) (quitFlag : Nat → Bool)
    (deviceAddress : Nat) (servicesCb : Bool) :
    ∃ (pre : List Event) (l : BleServiceArray),
      (ScanServicesAsync P quitFlag deviceAddress servicesCb).trace =
        pre ++ (if servicesCb then [Event.servicesCb l] else []) ∧
      callbackCount pre = 0 := by
  unfold ScanServicesAsync
  simp only
  split
  · exact ⟨_, _, rfl, rfl⟩
  · exact ⟨_, _, rfl, rfl⟩
  · rename_i device _
    split
    · refine ⟨_, _, rfl, ?_⟩
      simp only [callbackCount_append, ScanServicesAsync_query_no_callback]
      rfl
    · rename_i result _
      obtain ⟨w, hw⟩ := ScanServicesAsync_onResult_appends_stores quitFlag result
        { service_list := BleServiceArray.empty,
          trace := [Event.RetrieveDevice deviceAddress] ++ (ScanServicesAsync.query P device).2 }
      refine ⟨_, _, rfl, ?_⟩
      rw [hw]
      simp only [callbackCount_append, ScanServicesAsync_query_no_callback, callbackCount_stores]
      rfl

theorem ScanServicesAsync_query_modes (P : Platform) (device : BluetoothLEDevice) :
    requestedModes (ScanServicesAsync.query P device).2 =
      match P.GetGattServicesAsync device BluetoothCacheMode.Uncached with
      | .error _ => [BluetoothCacheMode.Uncached]
      | .ok r =>
        if r.Status = GattCommunicationStatus.Unreachable then
          [BluetoothCacheMode.Uncached, BluetoothCacheMode.Cached]
        else [BluetoothCacheMode.Uncached] := by
  unfold ScanServicesAsync.query
  simp only
  split
  · rfl
  · split <;> rfl

theorem ScanServicesAsync_query_no_payload (P : Platform) (device : BluetoothLEDevice) :
    servicesDelivered (ScanServicesAsync.query P device).2 = [] ∧
    serviceStoreIndices (ScanServicesAsync.query P device).2 = [] := by
  unfold ScanServicesAsync.query
  simp only
  split
  · exact ⟨rfl, rfl⟩
  · split <;> exact ⟨rfl, rfl⟩

/-- The modes requested by a run on a device that resolves are those of lines
165-168. -/
theorem ScanServicesAsync_requestedModes_eq (P : Platform) (quitFlag : Nat → Bool)
    (deviceAddress : Nat) (servicesCb : Bool) (device : BluetoothLEDevice)
    (hdevice : P.RetrieveDevice deviceAddress = .ok (some device)) :
    requestedModes (ScanServicesAsync P quitFlag deviceAddress servicesCb).trace =
      requestedModes (ScanServicesAsync.query P device).2 := by
  have hcb : ∀ l : BleServiceArray,
      requestedModes (if servicesCb then [Event.servicesCb l] else []) = [] := by
    intro l; cases servicesCb <;> rfl
  unfold ScanServicesAsync
  simp only [hdevice]
  split
  · simp only [ScanServicesAsync.finish, requestedModes_append, hcb]
    simp [requestedModes]
  · rename_i result _
    obtain ⟨w, hw⟩ := ScanServicesAsync_onResult_appends_stores quitFlag result
      { service_list := BleServiceArray.empty,
        trace := [Event.RetrieveDevice deviceAddress] ++ (ScanServicesAsync.query P device).2 }
    simp only [ScanServicesAsync.finish, hw, requestedModes_append, hcb, requestedModes_stores]
    simp [requestedModes]

theorem storeIndices_zipWith (l : List GattDeviceService) :
    ∀ i : Nat,
      serviceStoreIndices ((List.range' i l.length).zipWith
        (fun j s => Event.storeService j ⟨s.Uuid⟩) l) = List.range' i l.length ∧
      servicesDelivered ((List.range' i l.length).zipWith
        (fun j s => Event.storeService j ⟨s.Uuid⟩) l) = [] := by
  induction l with
  | nil => intro i; exact ⟨rfl, rfl⟩
  | cons s rest ih =>
    intro i
    obtain ⟨h1, h2⟩ := ih (i + 1)
    simp only [serviceStoreIndices, servicesDelivered] at h1 h2
    simp [serviceStoreIndices, servicesDelivered, List.range'_succ, h1, h2]

/-- C10: for every device that resolves and whose service query (lines 165-168)
returns `Success` with services s_0 .. s_(n-1), when the quit flag is never read set
and no call throws, `ScanServicesAsync` hands the callback exactly one list, whose
count is n and whose i-th entry carries the UUID of s_i (the array is the carriers of
the services in the order of the transport); the stores into the array are at the
indices 0, 1, .., n-1, all below n; when n = 0 the list has count 0 and no array. -/
theorem ScanServicesAsync_delivers_all (P : Platform) (quitFlag : Nat → Bool)
    (deviceAddress : Nat) (device : BluetoothLEDevice) (result : GattDeviceServicesResult)
    (hdevice : P.RetrieveDevice deviceAddress = .ok (some device))
    (hquery : (ScanServicesAsync.query P device).1 = .ok result)
    (hstatus : result.Status = GattCommunicationStatus.Success)
    (hquit : ∀ t, quitFlag t = false) :
    servicesDelivered (ScanServicesAsync P quitFlag deviceAddress true).trace =
      [⟨if result.Services.length = 0 then none
        else some (result.Services.map fun s => ⟨s.Uuid⟩), result.Services.length⟩] ∧
    serviceStoreIndices (ScanServicesAsync P quitFlag deviceAddress true).trace =
      List.range result.Services.length ∧
    (∀ i ∈ serviceStoreIndices (ScanServicesAsync P quitFlag deviceAddress true).trace,
      i < result.Services.length) := by
  have hq := ScanServicesAsync_query_no_payload P device
  have key : servicesDelivered (ScanServicesAsync P quitFlag deviceAddress true).trace =
      [⟨if result.Services.length = 0 then none
        else some (result.Services.map fun s => ⟨s.Uuid⟩), result.Services.length⟩] ∧
    serviceStoreIndices (ScanServicesAsync P quitFlag deviceAddress true).trace =
      List.range result.Services.length := by
    unfold ScanServicesAsync
    simp only [hdevice, hquery, ScanServicesAsync.finish, ScanServicesAsync.onResult, hstatus,
      if_true]
    by_cases hn : result.Services.length = 0
    · simp only [hn, if_true, servicesDelivered_append, serviceStoreIndices_append, hq.1, hq.2]
      exact ⟨rfl, rfl⟩
    · have hloop := ScanServicesAsync_loop_no_quit quitFlag hquit result.Services []
        (List.replicate result.Services.length BleService.empty) result.Services.length
        ([Event.RetrieveDevice deviceAddress] ++ (ScanServicesAsync.query P device).2)
        (by simp)
      simp only [List.length_nil, List.nil_append] at hloop
      have hz := storeIndices_zipWith result.Services 0
      simp only [hn, if_false, BleServiceArray.empty, hloop, servicesDelivered_append,
        serviceStoreIndices_append, hq.1, hq.2, hz.1, hz.2]
      refine ⟨rfl, ?_⟩
      simp [serviceStoreIndices, List.range_eq_range']
  refine ⟨key.1, key.2, ?_⟩
  intro i hi
  rw [key.2] at hi
  exact List.mem_range.mp hi

/-- C10, at the platform `Platform.twoServices` with the flag never set. -/
theorem ScanServicesAsync_delivers_all_witness :
    servicesDelivered
        (ScanServicesAsync Platform.twoServices (fun _ => false) 7 true).trace =
      [⟨some [⟨0x1800⟩, ⟨0x180F⟩], 2⟩] ∧
    serviceStoreIndices
        (ScanServicesAsync Platform.twoServices (fun _ => false) 7 true).trace = [0, 1] ∧
    1 < [(⟨0x1800, 1⟩ : GattDeviceService), ⟨0x180F, 5⟩].length :=
  have h := ScanServicesAsync_delivers_all Platform.twoServices (fun _ => false) 7 ⟨7⟩
    ⟨GattCommunicationStatus.Success, [⟨0x1800, 1⟩, ⟨0x180F, 5⟩]⟩ rfl rfl rfl
    (fun _ => rfl)
  ⟨h.1, h.2.1, h.2.2 1 (by decide)⟩

/-- C4 as amended: for every device that resolves, `ScanServicesAsync` requests the
service list first in uncached mode, and issues a second request, in cached mode, if
and only if the first request returned the status `Unreachable`; no other sequence of
cache modes is issued. -/
theorem ScanServicesAsync_cache_modes (P : Platform) (quitFlag : Nat → Bool)
    (deviceAddress : Nat) (servicesCb : Bool) (device : BluetoothLEDevice)
    (hdevice : P.RetrieveDevice deviceAddress = .ok (some device)) :
    (requestedModes (ScanServicesAsync P quitFlag deviceAddress servicesCb).trace =
        [BluetoothCacheMode.Uncached] ∨
      requestedModes (ScanServicesAsync P quitFlag deviceAddress servicesCb).trace =
        [BluetoothCacheMode.Uncached, BluetoothCacheMode.Cached]) ∧
    (requestedModes (ScanServicesAsync P quitFlag deviceAddress servicesCb).trace =
        [BluetoothCacheMode.Uncached, BluetoothCacheMode.Cached] ↔
      ∃ r, P.GetGattServicesAsync device BluetoothCacheMode.Uncached = .ok r ∧
        r.Status = GattCommunicationStatus.Unreachable) := by
  rw [ScanServicesAsync_requestedModes_eq P quitFlag deviceAddress servicesCb device hdevice,
    ScanServicesAsync_query_modes]
  cases h : P.GetGattServicesAsync device BluetoothCacheMode.Uncached with
  | error ex => simp
  | ok r =>
    by_cases hr : r.Status = GattCommunicationStatus.Unreachable
    · simp [hr]
    · simp [hr]

/-- C4 as amended, at the platform `Platform.staleLink`, whose uncached request
answers `Unreachable`. -/
theorem ScanServicesAsync_cache_modes_witness :
    requestedModes (ScanServicesAsync Platform.staleLink (fun _ => false) 7 true).trace =
      [BluetoothCacheMode.Uncached, BluetoothCacheMode.Cached] :=
  ((ScanServicesAsync_cache_modes Platform.staleLink (fun _ => false) 7 true ⟨7⟩ rfl).2).mpr
    ⟨⟨GattCommunicationStatus.Unreachable, []⟩, rfl, rfl⟩

/-- C4 as stated fails: on `Platform.twoServices` the device resolves and the only
request is in uncached mode, so the first request is not in cached mode. -/
theorem ScanServicesAsync_first_request_not_cached :
    Platform.twoServices.RetrieveDevice 7 = .ok (some ⟨7⟩) ∧
    requestedModes (ScanServicesAsync Platform.twoServices (fun _ => false) 7 true).trace =
      [BluetoothCacheMode.Uncached] ∧
    (requestedModes
      (ScanServicesAsync Platform.twoServices (fun _ => false) 7 true).trace).head? ≠
      some BluetoothCacheMode.Cached :=
  ⟨rfl, by decide, by decide⟩

/-- C3 at the failing input: on `Platform.twoServices` (n = 2) with the flag read set
by the first poll, one item is processed (one store, at index 0), yet the list handed
to the callback reports count 2, its second slot never written. The same holds for
`ScanCharacteristicsAsync` on `Platform.plainCharacteristics`. -/
theorem ScanServicesAsync_count_after_quit :
    serviceStoreIndices
        (ScanServicesAsync Platform.twoServices (fun _ => true) 7 true).trace = [0] ∧
    servicesDelivered (ScanServicesAsync Platform.twoServices (fun _ => true) 7 true).trace =
      [⟨some [⟨0x1800⟩, BleService.empty], 2⟩] ∧
    characteristicStoreIndices
        (ScanCharacteristicsAsync Platform.plainCharacteristics (fun _ => true) 7 0x180F
          true).trace = [0] ∧
    characteristicsDelivered
        (ScanCharacteristicsAsync Platform.plainCharacteristics (fun _ => true) 7 0x180F
          true).trace =
      [⟨some [⟨0x2A00, "no description available"⟩, BleCharacteristic.empty], 2⟩] := by
  decide

/-- C2 at the failing input: on `Platform.twoCharacteristics` (C1 without description
descriptor, the read of the description of C2 answers `Unreachable`, flag never set)
the list handed to the callback reports count 2, and its second slot is the
default-constructed carrier. -/
theorem ScanCharacteristicsAsync_count_after_skip :
    characteristicStoreIndices
        (ScanCharacteristicsAsync Platform.twoCharacteristics (fun _ => false) 7 0x180F
          true).trace = [0] ∧
    characteristicsDelivered
        (ScanCharacteristicsAsync Platform.twoCharacteristics (fun _ => false) 7 0x180F
          true).trace =
      [⟨some [⟨0x2A00, "no description available"⟩, BleCharacteristic.empty], 2⟩] := by
  decide

/-! ## The loop of ScanCharacteristicsAsync -/

theorem ScanCharacteristicsAsync_lookup_no_callback (P : Platform) (c : GattCharacteristic) :
    callbackCount (ScanCharacteristicsAsync.lookup P c).2 = 0 := by
  unfold ScanCharacteristicsAsync.lookup
  simp only
  split
  · rfl
  · split
    · rfl
    · split
      · rfl
      · split <;> rfl

/-- The loop adds no callback invocation to the trace. -/
theorem ScanCharacteristicsAsync_loop_no_callback (P : Platform) (quitFlag : Nat → Bool)
    (l : List GattCharacteristic) :
    ∀ (t i : Nat) (st : CharacteristicsScan),
      callbackCount (ScanCharacteristicsAsync.loop P quitFlag l t i st).trace =
        callbackCount st.trace := by
  induction l with
  | nil => intro t i st; simp [ScanCharacteristicsAsync.loop]
  | cons c rest ih =>
    intro t i st
    simp only [ScanCharacteristicsAsync.loop]
    split
    · simp [callbackCount_append, ScanCharacteristicsAsync_lookup_no_callback]
    · rw [ih]
      simp [callbackCount_append, ScanCharacteristicsAsync_lookup_no_callback]
    · split
      · simp only [callbackCount_append, ScanCharacteristicsAsync_lookup_no_callback]
        rfl
      · rw [ih]
        simp only [callbackCount_append, ScanCharacteristicsAsync_lookup_no_callback]
        rfl

/-- Every run of `ScanCharacteristicsAsync` with a non-null callback invokes it
once. -/
theorem ScanCharacteristicsAsync_callbackCount (P : Platform) (quitFlag : Nat → Bool)
    (deviceAddress : Nat) (serviceUuid : guid) :
    callbackCount
      (ScanCharacteristicsAsync P quitFlag deviceAddress serviceUuid true).trace = 1 := by
  unfold ScanCharacteristicsAsync
  simp only
  split
  · rfl
  · rfl
  · split
    · rfl
    · split
      · rfl
      · simp only [ScanCharacteristicsAsync.finish, callbackCount_append,
          ScanCharacteristicsAsync_loop_no_callback]
        rfl

/-- Every run of `ScanServicesAsync` with a non-null callback invokes it once. -/
theorem ScanServicesAsync_callbackCount (P : Platform) (quitFlag : Nat → Bool)
    (deviceAddress : Nat) :
    callbackCount (ScanServicesAsync P quitFlag deviceAddress true).trace = 1 := by
  obtain ⟨pre, l, h, hpre⟩ := ScanServicesAsync_trace_shape P quitFlag deviceAddress true
  rw [h, callbackCount_append, hpre]
  rfl

/-! ## The claims on the single-call operations -/

/-- C1 as amended: with a non-null callback, `ScanServices` and `ScanCharacteristics`
invoke their callback exactly once on every path (success, non-success status, failed
resolution, thrown error); `DisconnectDevice` invokes it exactly once when the cache
removal returns or raises a `std::exception`; `ConnectDevice` and `WriteBytes` invoke
it exactly once whenever the calls they await return (device or characteristic found
or not, any write status); `SubscribeCharacteristic` invokes it exactly once when the
characteristic resolves and the notification-enable request returns `Success`, and not
at all otherwise; `ReadBytes` invokes it exactly once when the characteristic resolves
and the read returns `Success`. -/
theorem callback_exactly_once (P : Platform) (quitFlag : Nat → Bool)
    (RemoveFromCache : Nat → HandleCache → HandleCache × Option Thrown)
    (cache : HandleCache) (subscriptions : List Subscription)
    (deviceAddress : Nat) (serviceUuid characteristicUuid : guid)
    (data size : Nat) (memory : Nat → Nat) :
    callbackCount (ScanServices P quitFlag deviceAddress true).trace = 1 ∧
    callbackCount (ScanCharacteristics P quitFlag deviceAddress serviceUuid true).trace = 1 ∧
    (((RemoveFromCache deviceAddress cache).2 = none ∨
        ∃ e, (RemoveFromCache deviceAddress cache).2 = some (Thrown.std_exception e)) →
      callbackCount (DisconnectDevice RemoveFromCache cache deviceAddress true).trace = 1) ∧
    ((∃ d, P.RetrieveDevice deviceAddress = .ok d) →
      callbackCount (ConnectDevice P deviceAddress true).trace = 1) ∧
    ((P.RetrieveCharacteristic deviceAddress serviceUuid characteristicUuid = .ok none ∨
        ∃ ch status,
          P.RetrieveCharacteristic deviceAddress serviceUuid characteristicUuid =
            .ok (some ch) ∧
          P.WriteValueAsync ch (bytesAt memory data size) = .ok status) →
      callbackCount
        (WriteBytes P deviceAddress serviceUuid characteristicUuid data size memory
          true).trace = 1) ∧
    ((∃ ch,
        P.RetrieveCharacteristic deviceAddress serviceUuid characteristicUuid =
          .ok (some ch) ∧
        P.WriteClientCharacteristicConfigurationDescriptorAsync ch =
          .ok GattCommunicationStatus.Success) →
      callbackCount
        (SubscribeCharacteristic P subscriptions deviceAddress serviceUuid
          characteristicUuid true).trace = 1) ∧
    ((¬ ∃ ch,
        P.RetrieveCharacteristic deviceAddress serviceUuid characteristicUuid =
          .ok (some ch) ∧
        P.WriteClientCharacteristicConfigurationDescriptorAsync ch =
          .ok GattCommunicationStatus.Success) →
      callbackCount
        (SubscribeCharacteristic P subscriptions deviceAddress serviceUuid
          characteristicUuid true).trace = 0) ∧
    ((∃ ch r,
        P.RetrieveCharacteristic deviceAddress serviceUuid characteristicUuid =
          .ok (some ch) ∧
        P.ReadValueAsync ch = .ok r ∧ r.Status = GattCommunicationStatus.Success) →
      callbackCount
        (ReadBytes P deviceAddress serviceUuid characteristicUuid true).trace = 1) := by
  refine ⟨ScanServicesAsync_callbackCount P quitFlag deviceAddress,
    ScanCharacteristicsAsync_callbackCount P quitFlag deviceAddress serviceUuid,
    ?_, ?_, ?_, ?_, ?_, ?_⟩
  · intro h
    unfold DisconnectDevice
    rcases hr : RemoveFromCache deviceAddress cache with ⟨cache1, thrown⟩
    rw [hr] at h
    rcases h with h | ⟨e, h⟩
    · simp only at h
      subst h
      rfl
    · simp only at h
      subst h
      rfl
  · rintro ⟨d, hd⟩
    unfold ConnectDevice ConnectDeviceAsync
    simp only [hd]
    cases d <;> rfl
  · rintro (h | ⟨ch, status, h1, h2⟩)
    · unfold WriteBytes WriteBytesAsync
      simp only [h]
      rfl
    · unfold WriteBytes WriteBytesAsync
      simp only [h1, h2]
      rfl
  · rintro ⟨ch, h1, h2⟩
    unfold SubscribeCharacteristic SubscribeCharacteristicAsync
    simp only [h1, h2]
    rfl
  · intro hno
    unfold SubscribeCharacteristic SubscribeCharacteristicAsync
    simp only
    split
    · rfl
    · rfl
    · rename_i ch hch
      split
      · rfl
      · rename_i status hst
        by_cases hs : status = GattCommunicationStatus.Success
        · exact absurd ⟨ch, hch, hs ▸ hst⟩ hno
        · simp only [ne_eq, hs, not_false_eq_true, if_true]
          rfl
  · rintro ⟨ch, r, h1, h2, h3⟩
    unfold ReadBytes ReadBytesAsync
    simp only [h1, h2, h3, ne_eq, not_true_eq_false, if_false]
    rfl

/-- C1 as amended, at the platform `Platform.answering Success`: the seven operations
invoke their callback once each (`DisconnectDevice` with a removal that raises a
`std::exception`); at `Platform.quiet`, where no characteristic resolves,
`SubscribeCharacteristic` does not invoke it. -/
theorem callback_exactly_once_witness :
    callbackCount (ScanServices (Platform.answering GattCommunicationStatus.Success)
      (fun _ => false) 7 true).trace = 1 ∧
    callbackCount (ScanCharacteristics (Platform.answering GattCommunicationStatus.Success)
      (fun _ => false) 7 0x180F true).trace = 1 ∧
    callbackCount (DisconnectDevice raisingRemoveFromCache [] 7 true).trace = 1 ∧
    callbackCount (ConnectDevice (Platform.answering GattCommunicationStatus.Success)
      7 true).trace = 1 ∧
    callbackCount (WriteBytes (Platform.answering GattCommunicationStatus.Success)
      7 0x180F 0x2A19 100 2 (fun _ => 9) true).trace = 1 ∧
    callbackCount (SubscribeCharacteristic (Platform.answering GattCommunicationStatus.Success)
      [] 7 0x180F 0x2A19 true).trace = 1 ∧
    callbackCount (ReadBytes (Platform.answering GattCommunicationStatus.Success)
      7 0x180F 0x2A19 true).trace = 1 ∧
    callbackCount (SubscribeCharacteristic Platform.quiet [] 7 0x180F 0x2A19 true).trace = 0 :=
  have h := callback_exactly_once (Platform.answering GattCommunicationStatus.Success)
    (fun _ => false) raisingRemoveFromCache [] [] 7 0x180F 0x2A19 100 2 (fun _ => 9)
  have h0 := callback_exactly_once Platform.quiet (fun _ => false) raisingRemoveFromCache
    [] [] 7 0x180F 0x2A19 100 2 (fun _ => 9)
  ⟨h.1, h.2.1, h.2.2.1 (Or.inr ⟨⟨"cache"⟩, rfl⟩), h.2.2.2.1 ⟨some ⟨7⟩, rfl⟩,
    h.2.2.2.2.1 (Or.inr ⟨⟨0x2A19, 3⟩, GattCommunicationStatus.Success, rfl, rfl⟩),
    h.2.2.2.2.2.1 ⟨⟨0x2A19, 3⟩, rfl, rfl⟩,
    h.2.2.2.2.2.2.2
      ⟨⟨0x2A19, 3⟩, ⟨GattCommunicationStatus.Success, [1, 2, 3]⟩, rfl, rfl, rfl⟩,
    h0.2.2.2.2.2.2.1 (fun ⟨_, hch, _⟩ => nomatch hch)⟩

/-- C1 as stated fails: on `Platform.answering Unreachable` the characteristic resolves,
the notification-enable request returns the non-success status `Unreachable`, and
`SubscribeCharacteristic` with a non-null callback invokes it zero times. -/
theorem SubscribeCharacteristic_no_callback_on_failure :
    callbackCount
      (SubscribeCharacteristic (Platform.answering GattCommunicationStatus.Unreachable)
        [] 7 0x180F 0x2A19 true).trace = 0 ∧
    callbackCount
      (SubscribeCharacteristic (Platform.answering GattCommunicationStatus.Unreachable)
        [] 7 0x180F 0x2A19 true).trace ≠ 1 := by
  decide

/-- C5 as amended: for every address, service id, characteristic id and buffer (pointer
`data`, length `size`), with a non-null callback: when the resolver returns no
characteristic, `WriteBytesAsync` issues no write and invokes the callback exactly
once, with false; when the resolver returns a characteristic and the write returns
(whatever status), `WriteBytesAsync` issues exactly one write, on that characteristic,
and then invokes the callback exactly once, with true; the bytes written are the given
bytes (those at `data` in `memoryAtCall`) provided the buffer still holds them when
the coroutine reads it at line 373. -/
theorem WriteBytesAsync_contract (P : Platform) (deviceAddress : Nat)
    (serviceUuid characteristicUuid : guid) (data size : Nat)
    (memoryAtCall memory : Nat → Nat) :
    (P.RetrieveCharacteristic deviceAddress serviceUuid characteristicUuid = .ok none →
      (WriteBytesAsync P deviceAddress serviceUuid characteristicUuid data size memory
          true).trace =
        [Event.RetrieveCharacteristic deviceAddress serviceUuid characteristicUuid,
          Event.writeCallback false] ∧
      writesIssued
        (WriteBytesAsync P deviceAddress serviceUuid characteristicUuid data size memory
          true).trace = [] ∧
      callbackCount
        (WriteBytesAsync P deviceAddress serviceUuid characteristicUuid data size memory
          true).trace = 1) ∧
    (∀ ch status,
      P.RetrieveCharacteristic deviceAddress serviceUuid characteristicUuid = .ok (some ch) →
      P.WriteValueAsync ch (bytesAt memory data size) = .ok status →
      (∃ bytes,
        (WriteBytesAsync P deviceAddress serviceUuid characteristicUuid data size memory
            true).trace =
          [Event.RetrieveCharacteristic deviceAddress serviceUuid characteristicUuid,
            Event.WriteValueAsync ch bytes, Event.writeCallback true]) ∧
      callbackCount
        (WriteBytesAsync P deviceAddress serviceUuid characteristicUuid data size memory
          true).trace = 1 ∧
      (bytesAt memory data size = bytesAt memoryAtCall data size →
        (WriteBytesAsync P deviceAddress serviceUuid characteristicUuid data size memory
            true).trace =
          [Event.RetrieveCharacteristic deviceAddress serviceUuid characteristicUuid,
            Event.WriteValueAsync ch (bytesAt memoryAtCall data size),
            Event.writeCallback true] ∧
        writesIssued
          (WriteBytesAsync P deviceAddress serviceUuid characteristicUuid data size memory
            true).trace = [(ch, bytesAt memoryAtCall data size)])) := by
  constructor
  · intro h
    have hrun : WriteBytesAsync P deviceAddress serviceUuid characteristicUuid data size
        memory true =
        ⟨[Event.RetrieveCharacteristic deviceAddress serviceUuid characteristicUuid,
          Event.writeCallback false], Ending.returned⟩ := by
      simp [WriteBytesAsync, h]
    rw [hrun]
    exact ⟨rfl, rfl, rfl⟩
  · intro ch status h1 h2
    have hrun : WriteBytesAsync P deviceAddress serviceUuid characteristicUuid data size
        memory true =
        ⟨[Event.RetrieveCharacteristic deviceAddress serviceUuid characteristicUuid,
          Event.WriteValueAsync ch (bytesAt memory data size), Event.writeCallback true],
          Ending.returned⟩ := by
      simp [WriteBytesAsync, h1, h2]
    rw [hrun]
    refine ⟨⟨_, rfl⟩, rfl, ?_⟩
    intro hsame
    rw [hsame]
    exact ⟨rfl, rfl⟩

/-- C5 as amended, at `Platform.quiet` (nothing resolves) and at
`Platform.answering AccessDenied` (the characteristic resolves, the write returns
`AccessDenied`) with the buffer of two bytes at address 100 left as given. -/
theorem WriteBytesAsync_contract_witness :
    (WriteBytesAsync Platform.quiet 7 0x180F 0x2A19 100 2 (fun _ => 9) true).trace =
      [Event.RetrieveCharacteristic 7 0x180F 0x2A19, Event.writeCallback false] ∧
    (WriteBytesAsync (Platform.answering GattCommunicationStatus.AccessDenied)
        7 0x180F 0x2A19 100 2 (fun _ => 9) true).trace =
      [Event.RetrieveCharacteristic 7 0x180F 0x2A19,
        Event.WriteValueAsync ⟨0x2A19, 3⟩ (bytesAt (fun _ => 9) 100 2),
        Event.writeCallback true] ∧
    bytesAt (fun _ => 9) 100 2 = [9, 9] :=
  ⟨((WriteBytesAsync_contract Platform.quiet 7 0x180F 0x2A19 100 2 (fun _ => 9)
      (fun _ => 9)).1 rfl).1,
    (((WriteBytesAsync_contract (Platform.answering GattCommunicationStatus.AccessDenied)
      7 0x180F 0x2A19 100 2 (fun _ => 9) (fun _ => 9)).2 ⟨0x2A19, 3⟩
      GattCommunicationStatus.AccessDenied rfl rfl).2.2 rfl).1,
    by decide⟩

/-- C5 as stated fails: on `Platform.throwing` the characteristic fails to resolve (the
resolver throws) and `WriteBytesAsync` ends uncaught without invoking the callback; on
`Platform.throwingCalls` the characteristic resolves, the write throws and the
callback is not invoked; on `Platform.answering Success`, when the buffer given as
[9, 9] holds [0, 0] at the time the coroutine reads it, the bytes written are [0, 0]. -/
theorem WriteBytesAsync_no_callback_on_throw :
    callbackCount
      (WriteBytesAsync Platform.throwing 7 0x180F 0x2A19 100 2 (fun _ => 9) true).trace = 0 ∧
    (WriteBytesAsync Platform.throwing 7 0x180F 0x2A19 100 2 (fun _ => 9) true).ending =
      Ending.uncaught ⟨-2147467259⟩ ∧
    callbackCount
      (WriteBytesAsync Platform.throwingCalls 7 0x180F 0x2A19 100 2 (fun _ => 9)
        true).trace = 0 ∧
    bytesAt (fun _ => 9) 100 2 = [9, 9] ∧
    writesIssued
      (WriteBytesAsync (Platform.answering GattCommunicationStatus.Success)
        7 0x180F 0x2A19 100 2 (fun _ => 0) true).trace = [(⟨0x2A19, 3⟩, [0, 0])] := by
  decide

/-- C6: for every registry `subscriptions` and every identity,
`SubscribeCharacteristicAsync` leaves the registry equal to the previous one with
exactly one new entry appended, for the resolved characteristic, when the
notification-enable request returns `Success`; it leaves the registry unchanged when
resolution fails (null or thrown), when the status is not `Success`, and when the
request throws. -/
theorem SubscribeCharacteristicAsync_registry (P : Platform)
    (subscriptions : List Subscription) (deviceAddress : Nat)
    (serviceUuid characteristicUuid : guid) (subscribeCallback : Bool) :
    (∀ ch,
      P.RetrieveCharacteristic deviceAddress serviceUuid characteristicUuid = .ok (some ch) →
      P.WriteClientCharacteristicConfigurationDescriptorAsync ch =
        .ok GattCommunicationStatus.Success →
      (SubscribeCharacteristicAsync P subscriptions deviceAddress serviceUuid
        characteristicUuid subscribeCallback).subscriptions = subscriptions ++ [⟨ch⟩]) ∧
    (P.RetrieveCharacteristic deviceAddress serviceUuid characteristicUuid = .ok none →
      (SubscribeCharacteristicAsync P subscriptions deviceAddress serviceUuid
        characteristicUuid subscribeCallback).subscriptions = subscriptions) ∧
    (∀ ex,
      P.RetrieveCharacteristic deviceAddress serviceUuid characteristicUuid = .error ex →
      (SubscribeCharacteristicAsync P subscriptions deviceAddress serviceUuid
        characteristicUuid subscribeCallback).subscriptions = subscriptions) ∧
    (∀ ch status,
      P.RetrieveCharacteristic deviceAddress serviceUuid characteristicUuid = .ok (some ch) →
      P.WriteClientCharacteristicConfigurationDescriptorAsync ch = .ok status →
      status ≠ GattCommunicationStatus.Success →
      (SubscribeCharacteristicAsync P subscriptions deviceAddress serviceUuid
        characteristicUuid subscribeCallback).subscriptions = subscriptions) ∧
    (∀ ch ex,
      P.RetrieveCharacteristic deviceAddress serviceUuid characteristicUuid = .ok (some ch) →
      P.WriteClientCharacteristicConfigurationDescriptorAsync ch = .error ex →
      (SubscribeCharacteristicAsync P subscriptions deviceAddress serviceUuid
        characteristicUuid subscribeCallback).subscriptions = subscriptions) := by
  refine ⟨?_, ?_, ?_, ?_, ?_⟩
  · intro ch h1 h2
    unfold SubscribeCharacteristicAsync
    simp only [h1, h2, ne_eq, not_true_eq_false, if_false]
  · intro h
    unfold SubscribeCharacteristicAsync
    simp only [h]
  · intro ex h
    unfold SubscribeCharacteristicAsync
    simp only [h]
  · intro ch status h1 h2 h3
    unfold SubscribeCharacteristicAsync
    simp only [h1, h2, ne_eq, h3, not_false_eq_true, if_true]
  · intro ch ex h1 h2
    unfold SubscribeCharacteristicAsync
    simp only [h1, h2]

/-- C6, on a registry with one entry: at `Platform.answering Success` the registry
gains the entry of the resolved characteristic; at `Platform.answering ProtocolError`
(non-success status), `Platform.quiet` (null characteristic), `Platform.throwing`
(the resolver throws) and `Platform.throwingCalls` (the request throws) it is
unchanged. -/
theorem SubscribeCharacteristicAsync_registry_witness :
    (SubscribeCharacteristicAsync (Platform.answering GattCommunicationStatus.Success)
        [⟨⟨0x2A00, 2⟩⟩] 7 0x180F 0x2A19 true).subscriptions =
      [⟨⟨0x2A00, 2⟩⟩] ++ [⟨⟨0x2A19, 3⟩⟩] ∧
    (SubscribeCharacteristicAsync (Platform.answering GattCommunicationStatus.ProtocolError)
        [⟨⟨0x2A00, 2⟩⟩] 7 0x180F 0x2A19 true).subscriptions = [⟨⟨0x2A00, 2⟩⟩] ∧
    (SubscribeCharacteristicAsync Platform.quiet
        [⟨⟨0x2A00, 2⟩⟩] 7 0x180F 0x2A19 true).subscriptions = [⟨⟨0x2A00, 2⟩⟩] ∧
    (SubscribeCharacteristicAsync Platform.throwing
        [⟨⟨0x2A00, 2⟩⟩] 7 0x180F 0x2A19 true).subscriptions = [⟨⟨0x2A00, 2⟩⟩] ∧
    (SubscribeCharacteristicAsync Platform.throwingCalls
        [⟨⟨0x2A00, 2⟩⟩] 7 0x180F 0x2A19 true).subscriptions = [⟨⟨0x2A00, 2⟩⟩] :=
  ⟨(SubscribeCharacteristicAsync_registry (Platform.answering GattCommunicationStatus.Success)
      [⟨⟨0x2A00, 2⟩⟩] 7 0x180F 0x2A19 true).1 ⟨0x2A19, 3⟩ rfl rfl,
    (SubscribeCharacteristicAsync_registry
      (Platform.answering GattCommunicationStatus.ProtocolError)
      [⟨⟨0x2A00, 2⟩⟩] 7 0x180F 0x2A19 true).2.2.2.1 ⟨0x2A19, 3⟩
      GattCommunicationStatus.ProtocolError rfl rfl (by decide),
    (SubscribeCharacteristicAsync_registry Platform.quiet
      [⟨⟨0x2A00, 2⟩⟩] 7 0x180F 0x2A19 true).2.1 rfl,
    (SubscribeCharacteristicAsync_registry Platform.throwing
      [⟨⟨0x2A00, 2⟩⟩] 7 0x180F 0x2A19 true).2.2.1 ⟨-2147467259⟩ rfl,
    (SubscribeCharacteristicAsync_registry Platform.throwingCalls
      [⟨⟨0x2A00, 2⟩⟩] 7 0x180F 0x2A19 true).2.2.2.2 ⟨0x2A19, 3⟩ ⟨-2147467259⟩ rfl rfl⟩

/-! ## Quit and DisconnectDevice -/

/-- C7 as amended: `Quit` is idempotent when the scan stop request returns. For every
state (any quit flag, any subscription registry, any cache), with the scan stop
request of each call returning, one call of `Quit` and a second call right after it
both return without error and both leave the flag set, the registry empty and the
cache cleared; the state after the second call equals the state after the first. -/
theorem Quit_idempotent (g : Globals) :
    (Quit (.ok ()) g).ending = Ending.returned ∧
    (Quit (.ok ()) (Quit (.ok ()) g).globals).ending = Ending.returned ∧
    (Quit (.ok ()) g).globals = ⟨true, [], []⟩ ∧
    (Quit (.ok ()) (Quit (.ok ()) g).globals).globals = ⟨true, [], []⟩ ∧
    (Quit (.ok ()) (Quit (.ok ()) g).globals).globals = (Quit (.ok ()) g).globals := by
  simp [Quit, StopScan, ClearCache]

/-- C7 as stated fails: on `Globals.sample` with the scan stop request raising an error,
one call of `Quit` does not complete without error, and after two calls in a row the
registry and the cache are still not empty. -/
theorem Quit_twice_stop_error :
    (Quit (.error ⟨-2147467259⟩) Globals.sample).ending ≠ Ending.returned ∧
    (Quit (.error ⟨-2147467259⟩)
      (Quit (.error ⟨-2147467259⟩) Globals.sample).globals).ending ≠ Ending.returned ∧
    (Quit (.error ⟨-2147467259⟩)
      (Quit (.error ⟨-2147467259⟩) Globals.sample).globals).globals.subscriptions ≠ [] ∧
    (Quit (.error ⟨-2147467259⟩)
      (Quit (.error ⟨-2147467259⟩) Globals.sample).globals).globals.cache ≠ [] := by
  decide

/-- C8 as amended: `Quit` performs its four steps in the order (1) set the quit flag,
(2) stop the scan, (3) revoke every registered subscription and empty the registry,
(4) clear the cache, with no condition on the state; when the scan stop request
returns, every step is performed, so the registry is empty and the cache cleared
afterwards. `Quit` handles no error: when the scan stop request raises one, the error
leaves `Quit` after steps (1) and (2), with the flag set and the registry and the
cache as they were. -/
theorem Quit_steps (g : Globals) :
    (Quit (.ok ()) g).trace =
      [Event.setQuitFlag, Event.Stop] ++
        g.subscriptions.map (fun subscription => Event.revoke subscription.characteristic) ++
        [Event.clearSubscriptions, Event.ClearCache] ∧
    (Quit (.ok ()) g).ending = Ending.returned ∧
    (Quit (.ok ()) g).globals = ⟨true, [], []⟩ ∧
    (∀ ex : hresult_error,
      (Quit (.error ex) g).trace = [Event.setQuitFlag, Event.Stop] ∧
      (Quit (.error ex) g).ending = Ending.uncaught ex ∧
      (Quit (.error ex) g).globals = ⟨true, g.subscriptions, g.cache⟩) := by
  simp [Quit, StopScan, ClearCache]

/-- C8 as stated fails: when the scan stop request raises an error on
`Globals.sample`, the error leaves `Quit`, no subscription is revoked, and the
registry and the cache are not emptied. -/
theorem Quit_stop_error_skips_later_steps :
    (Quit (.error ⟨-2147483634⟩) Globals.sample).ending = Ending.uncaught ⟨-2147483634⟩ ∧
    (Quit (.error ⟨-2147483634⟩) Globals.sample).trace = [Event.setQuitFlag, Event.Stop] ∧
    (Quit (.error ⟨-2147483634⟩) Globals.sample).globals.subscriptions ≠ [] ∧
    (Quit (.error ⟨-2147483634⟩) Globals.sample).globals.cache ≠ [] := by
  decide

/-- C9 as amended: for every device address a and non-null callback, `DisconnectDevice`
calls the cache removal for a and then invokes the callback exactly once: with a when
the removal raised no error, with the sentinel 0 when it raised a `std::exception`; in
both cases `DisconnectDevice` returns, the `std::exception` does not leave it. With
the removal of the spec (`quietRemoveFromCache`) no entry keyed under a is left in the
cache. -/
theorem DisconnectDevice_contract
    (RemoveFromCache : Nat → HandleCache → HandleCache × Option Thrown)
    (cache : HandleCache) (deviceAddress : Nat) :
    (∀ cache1, RemoveFromCache deviceAddress cache = (cache1, none) →
      (DisconnectDevice RemoveFromCache cache deviceAddress true).trace =
        [Event.RemoveFromCache deviceAddress, Event.disconnectedCb deviceAddress] ∧
      callbackCount (DisconnectDevice RemoveFromCache cache deviceAddress true).trace = 1 ∧
      (DisconnectDevice RemoveFromCache cache deviceAddress true).cache = cache1 ∧
      (DisconnectDevice RemoveFromCache cache deviceAddress true).ending = Ending.returned) ∧
    (∀ cache1 e,
      RemoveFromCache deviceAddress cache = (cache1, some (Thrown.std_exception e)) →
      (DisconnectDevice RemoveFromCache cache deviceAddress true).trace =
        [Event.RemoveFromCache deviceAddress, Event.disconnectedCb 0] ∧
      callbackCount (DisconnectDevice RemoveFromCache cache deviceAddress true).trace = 1 ∧
      (DisconnectDevice RemoveFromCache cache deviceAddress true).ending = Ending.returned) ∧
    (∀ k ∈ (DisconnectDevice quietRemoveFromCache cache deviceAddress true).cache,
      k.deviceAddress ≠ deviceAddress) := by
  refine ⟨?_, ?_, ?_⟩
  · intro cache1 h
    have hrun : DisconnectDevice RemoveFromCache cache deviceAddress true =
        ⟨[Event.RemoveFromCache deviceAddress, Event.disconnectedCb deviceAddress],
          Ending.returned, cache1⟩ := by
      simp [DisconnectDevice, h]
    rw [hrun]
    exact ⟨rfl, rfl, rfl, rfl⟩
  · intro cache1 e h
    have hrun : DisconnectDevice RemoveFromCache cache deviceAddress true =
        ⟨[Event.RemoveFromCache deviceAddress, Event.disconnectedCb 0],
          Ending.returned, cache1⟩ := by
      simp [DisconnectDevice, h]
    rw [hrun]
    exact ⟨rfl, rfl, rfl⟩
  · intro k hk
    simp only [DisconnectDevice, quietRemoveFromCache, HandleCache.remove] at hk
    simpa using (List.mem_filter.mp hk).2

/-- C9 as amended, on the cache of `Globals.sample`: the removal that raises no error
gives the callback the address 7, the removal that raises a `std::exception` gives it
the sentinel 0; an entry left after the removal of address 9 is keyed under another
address. -/
theorem DisconnectDevice_contract_witness :
    (DisconnectDevice quietRemoveFromCache Globals.sample.cache 7 true).trace =
      [Event.RemoveFromCache 7, Event.disconnectedCb 7] ∧
    (DisconnectDevice raisingRemoveFromCache Globals.sample.cache 7 true).trace =
      [Event.RemoveFromCache 7, Event.disconnectedCb 0] ∧
    (⟨7, some 0x180F, none⟩ : CacheKey).deviceAddress ≠ 9 :=
  ⟨((DisconnectDevice_contract quietRemoveFromCache Globals.sample.cache 7).1
      (HandleCache.remove 7 Globals.sample.cache) rfl).1,
    ((DisconnectDevice_contract raisingRemoveFromCache Globals.sample.cache 7).2.1
      Globals.sample.cache ⟨"cache"⟩ rfl).1,
    (DisconnectDevice_contract quietRemoveFromCache Globals.sample.cache 9).2.2
      ⟨7, some 0x180F, none⟩ (by decide)⟩

/-- C9 as stated fails: when the cache removal raises a `winrt::hresult_error`, which
the handler of line 113 does not take, `DisconnectDevice` with a non-null callback
invokes it zero times and the error leaves the function. -/
theorem DisconnectDevice_hresult_error_escapes :
    callbackCount
      (DisconnectDevice throwingRemoveFromCache Globals.sample.cache 7 true).trace = 0 ∧
    (DisconnectDevice throwingRemoveFromCache Globals.sample.cache 7 true).ending =
      Ending.uncaught ⟨-2147467259⟩ := by
  decide

end BleWinrt
